/-
Verification of the state-tracking and inhibition-scheduling engine of
faux-gnome-screensaver (src/faux-gnome-screensaver.py).

The development shallowly embeds the parts of `XScreenSaverManager` that the
claims of the specification are about: the watcher line protocol handler
(`_read_from_watcher`), the initial state query parse in `activate`, the
config timeout reader (`_read_timeout`), the inhibition scheduler
(`inhibit` / `uninhibit` / `_do_inhibit`), and the `active_time` property.

Python string helpers (`str.strip`, `str.split`, `datetime.strptime` for the
two fixed formats used, and the one `re.search` pattern used) are embedded
over `List Char` with the semantics of the CPython implementations restricted
to those fixed patterns. Python exceptions are modelled with `PyResult`:
code paths that raise return `PyResult.raised msg`.
-/
import Mathlib

namespace FauxGnomeScreensaver

/-- Result of running a piece of Python code that may raise an exception. -/
inductive PyResult (α : Type) where
  | ok (value : α)
  | raised (msg : String)
deriving DecidableEq, Repr

/-- Python `str.isspace` set for the ASCII whitespace characters used by
`str.strip()` / `str.split()` and the regex class `\s`. -/
def isPySpace (c : Char) : Bool :=
  c = ' ' || c = '\t' || c = '\n' || c = '\r' || c = '\x0b' || c = '\x0c'

/-- Python `str.strip()`: drop leading and trailing whitespace. -/
def pyStrip (l : List Char) : List Char :=
  ((l.dropWhile isPySpace).reverse.dropWhile isPySpace).reverse

/-- Worker for `pySplit`: `cur` is the reversed current token. -/
def pySplitAux : List Char → List Char → List (List Char)
  | cur, [] => if cur.isEmpty then [] else [cur.reverse]
  | cur, c :: rest =>
    if isPySpace c then
      if cur.isEmpty then pySplitAux [] rest
      else cur.reverse :: pySplitAux [] rest
    else pySplitAux (c :: cur) rest

/-- Python `str.split()` with no arguments: split on whitespace runs,
dropping empty tokens. -/
def pySplit (l : List Char) : List (List Char) :=
  pySplitAux [] l

/-- Python `str.split(None, 1)`: at most one split, on the first whitespace
run; leading whitespace is skipped and the remainder keeps its own trailing
content. Returns zero, one or two pieces. -/
def splitOnce (l : List Char) : List (List Char) :=
  let l1 := l.dropWhile isPySpace
  if l1.isEmpty then []
  else
    let tok := l1.takeWhile (fun c => !isPySpace c)
    let rest := (l1.dropWhile (fun c => !isPySpace c)).dropWhile isPySpace
    if rest.isEmpty then [tok] else [tok, rest]

/-- Numeric value of a decimal digit character. -/
def digitVal (c : Char) : Nat := c.toNat - 48

/-- `strptime` numeric field accepting one or two digits, where the
two-digit reading is only taken when its value is at most `maxv` (mirrors
the regex alternations CPython builds for `%H`, `%M`, `%S`: two-digit
alternatives first, then a bare `\d`). -/
def parse2or1 (maxv : Nat) : List Char → Option (Nat × List Char)
  | c1 :: c2 :: rest =>
    if c1.isDigit then
      if c2.isDigit && digitVal c1 * 10 + digitVal c2 ≤ maxv then
        some (digitVal c1 * 10 + digitVal c2, rest)
      else some (digitVal c1, c2 :: rest)
    else none
  | [c1] => if c1.isDigit then some (digitVal c1, []) else none
  | [] => none

/-- `strptime` day-of-month field `%d` (regex alternation
one-or-two digits with value 1..31; a bare `0` or `00` is rejected). -/
def parseDay : List Char → Option (Nat × List Char)
  | c1 :: c2 :: rest =>
    if c1.isDigit then
      if c2.isDigit && 1 ≤ digitVal c1 * 10 + digitVal c2 &&
          digitVal c1 * 10 + digitVal c2 ≤ 31 then
        some (digitVal c1 * 10 + digitVal c2, rest)
      else if 1 ≤ digitVal c1 then some (digitVal c1, c2 :: rest)
      else none
    else none
  | [c1] => if c1.isDigit && 1 ≤ digitVal c1 then some (digitVal c1, []) else none
  | [] => none

/-- `strptime` year field `%Y`: exactly four digits. -/
def parseYear4 : List Char → Option (Nat × List Char)
  | a :: b :: c :: d :: rest =>
    if a.isDigit && b.isDigit && c.isDigit && d.isDigit then
      some (((digitVal a * 10 + digitVal b) * 10 + digitVal c) * 10 + digitVal d, rest)
    else none
  | _ => none

/-- Match a fixed lowercase name case-insensitively as a prefix of the
input, returning the rest of the input. -/
def matchNameCI : List Char → List Char → Option (List Char)
  | [], l => some l
  | _ :: _, [] => none
  | p :: ps, c :: cs => if c.toLower = p then matchNameCI ps cs else none

/-- Try a list of names in order (1-based result index). -/
def matchOneOf : List (List Char) → Nat → List Char → Option (Nat × List Char)
  | [], _, _ => none
  | n :: ns, i, l =>
    match matchNameCI n l with
    | some rest => some (i, rest)
    | none => matchOneOf ns (i + 1) l

/-- Abbreviated day-of-week names recognised by `%a` in the C locale. -/
def dayNames : List (List Char) :=
  ["mon".toList, "tue".toList, "wed".toList, "thu".toList,
   "fri".toList, "sat".toList, "sun".toList]

/-- Abbreviated month names recognised by `%b` in the C locale. -/
def monthNames : List (List Char) :=
  ["jan".toList, "feb".toList, "mar".toList, "apr".toList,
   "may".toList, "jun".toList, "jul".toList, "aug".toList,
   "sep".toList, "oct".toList, "nov".toList, "dec".toList]

/-- One-or-more whitespace (what a literal space in a `strptime` format
turns into). -/
def ws1 : List Char → Option (List Char)
  | c :: rest => if isPySpace c then some (rest.dropWhile isPySpace) else none
  | [] => none

/-- A single literal character of a `strptime` format. -/
def lit (c : Char) : List Char → Option (List Char)
  | x :: rest => if x = c then some rest else none
  | [] => none

/-- Gregorian leap year rule, as used by `datetime`. -/
def isLeap (y : Nat) : Bool :=
  y % 4 = 0 && (y % 100 ≠ 0 || y % 400 = 0)

/-- Days in a month, as validated by the `datetime` constructor. -/
def daysInMonth (y m : Nat) : Nat :=
  if m = 2 then (if isLeap y then 29 else 28)
  else if m = 4 || m = 6 || m = 9 || m = 11 then 30
  else 31

/-- A parsed `datetime.datetime` value (the fields produced by the two
`strptime` formats the program uses). -/
structure DateTime where
  year : Nat
  month : Nat
  day : Nat
  hour : Nat
  minute : Nat
  second : Nat
deriving DecidableEq, Repr

/-- `datetime.datetime.strptime(s, "%a %b %d %H:%M:%S %Y")`: the fixed
timestamp format `DATETIME_FORMAT` of the program. The whole input must be
consumed; the `datetime` constructor additionally validates the day against
the month and rejects leap seconds and year 0. -/
def strptimeDateTime (l : List Char) : Option DateTime := do
  let (_, l) ← matchOneOf dayNames 1 l
  let l ← ws1 l
  let (mon, l) ← matchOneOf monthNames 1 l
  let l ← ws1 l
  let (d, l) ← parseDay l
  let l ← ws1 l
  let (h, l) ← parse2or1 23 l
  let l ← lit ':' l
  let (mi, l) ← parse2or1 59 l
  let l ← lit ':' l
  let (s, l) ← parse2or1 61 l
  let l ← ws1 l
  let (y, l) ← parseYear4 l
  if l = [] && 1 ≤ y && d ≤ daysInMonth y mon && s ≤ 59 then
    some ⟨y, mon, d, h, mi, s⟩
  else none

/-- `datetime.datetime.strptime(s, "%H:%M:%S")`: the fixed timeout format
`TIMEOUT_FORMAT` of the program; yields `(hour, minute, second)`. -/
def strptimeHMS (l : List Char) : Option (Nat × Nat × Nat) := do
  let (h, l) ← parse2or1 23 l
  let l ← lit ':' l
  let (m, l) ← parse2or1 59 l
  let l ← lit ':' l
  let (s, l) ← parse2or1 61 l
  if l = [] && s ≤ 59 then some (h, m, s) else none

/-- The `(active, activeSince, locked)` fields owned by the State Tracker. -/
structure TrackerState where
  active : Bool
  activeSince : DateTime
  locked : Bool
deriving DecidableEq, Repr

/-- `XScreenSaverManager._read_from_watcher`, at the level of one complete
line (the byte-at-a-time buffering has delivered a full line without its
newline terminator). Returns the new tracker state together with the list
of values carried by emitted `active-changed` notifications; a Python
exception escaping the callback is `PyResult.raised`. -/
def processWatcherLine (st : TrackerState) (line : String) :
    PyResult (TrackerState × List Bool) :=
  match splitOnce line.toList with
  | [stateTok, rest] =>
    if stateTok = "BLANK".toList ∨ stateTok = "LOCK".toList ∨
        stateTok = "UNBLANK".toList then
      let active : Bool := decide (stateTok ≠ "UNBLANK".toList)
      match strptimeDateTime (pyStrip rest) with
      | none => .raised "ValueError: time data does not match format"
      | some since =>
        let st1 : TrackerState := { st with locked := decide (stateTok = "LOCK".toList) }
        if active ≠ st1.active then
          .ok ({ st1 with active := active, activeSince := since }, [active])
        else
          .ok (st1, [])
    else .ok (st, [])
  | _ => .raised "ValueError: not enough values to unpack"

/-- Match a fixed literal prefix, returning the rest of the input. -/
def dropPrefixChars : List Char → List Char → Option (List Char)
  | [], l => some l
  | _ :: _, [] => none
  | p :: ps, c :: cs => if c = p then dropPrefixChars ps cs else none

/-- One attempt of the pattern `screen (\S+) since ([^\(]+)` at the current
position. The greedy `\S+` necessarily extends to the first whitespace
(the following literal is a space), and `[^\(]+` greedily takes the longest
run of characters other than an opening parenthesis. -/
def matchScreenAt (l : List Char) : Option (List Char × List Char) :=
  match dropPrefixChars ("screen ".toList) l with
  | none => none
  | some l1 =>
    let tok := l1.takeWhile (fun c => !isPySpace c)
    if tok.isEmpty then none
    else
      match dropPrefixChars (" since ".toList) (l1.dropWhile (fun c => !isPySpace c)) with
      | none => none
      | some l3 =>
        let grp2 := l3.takeWhile (fun c => c != '(')
        if grp2.isEmpty then none else some (tok, grp2)

/-- `re.search(r"screen (\S+) since ([^\(]+)", s)`: leftmost match,
returning the two capture groups. -/
def searchScreenSince : List Char → Option (List Char × List Char)
  | [] => none
  | c :: rest =>
    match matchScreenAt (c :: rest) with
    | some r => some r
    | none => searchScreenSince rest

/-- The state-initialisation portion of `XScreenSaverManager.activate`
(lines 84-92): fields default to `(false, now, false)`, then the output of
the synchronous `time` query is searched for `screen <word> since <ts>`.
An absent output (`_do_command` returned `None`) hits `None.decode(utf8)`
and raises; a matching output whose timestamp does not `strptime` raises. -/
def initFromTimeOutput (output : Option String) (now : DateTime) :
    PyResult TrackerState :=
  match output with
  | none => .raised "AttributeError: NoneType object has no attribute decode"
  | some s =>
    match searchScreenSince s.toList with
    | none => .ok ⟨false, now, false⟩
    | some (state, dateStr) =>
      match strptimeDateTime (pyStrip dateStr) with
      | none => .raised "ValueError: time data does not match format"
      | some dt =>
        .ok ⟨decide (state ≠ "non-blanked".toList), dt,
             decide (state = "locked".toList)⟩

/-- Externally observable actions of the manager: helper-command
invocations, `xset` calls, GObject signal emissions, and GLib timer
(dis)arming. -/
inductive Event where
  | cmd (c : String)
  | xset (arg : String)
  | emitActiveChanged (b : Bool)
  | emitTimeoutChanged (t : Int)
  | cancelTimer (id : Nat)
  | armTimer (id : Nat) (intervalMs : Int)
deriving DecidableEq, Repr

/-- The filesystem-monitor event kinds `_read_timeout` distinguishes. -/
inductive FileEvent where
  | changesDoneHint
  | deleted
  | other
deriving DecidableEq, Repr

/-- The manager state the claims are about: the tracker fields, the stored
timeout (`-1` sentinel before the first config read), the remembered
inhibition timer id, and — standing in for the GLib timer table — the list of
currently armed recurring timers `(id, interval in ms)` with a fresh-id
counter. `manageDpms` is `not no_dpms` from the constructor. -/
structure ManagerState where
  tracker : TrackerState
  timeout : Int
  inhibitId : Option Nat
  nextTimerId : Nat
  armed : List (Nat × Int)
  manageDpms : Bool
deriving DecidableEq, Repr

/-- `XScreenSaverManager._set_dpms(enable)`: calls `xset +dpms` / `-dpms`
only when DPMS management is on. -/
def setDpmsEvents (manageDpms : Bool) (enable : Bool) : List Event :=
  if manageDpms then [Event.xset (if enable then "+dpms" else "-dpms")] else []

/-- `XScreenSaverManager._do_inhibit`: one suppression tick. When the
tracker is not locked, issue the deactivate command and disable DPMS;
when locked, skip entirely. (The callback returns `True`, so a timer-driven
tick keeps the timer armed.) -/
def doInhibitEvents (s : ManagerState) : List Event :=
  if !s.tracker.locked then
    Event.cmd "deactivate" :: setDpmsEvents s.manageDpms false
  else []

/-- The `GLib.source_remove` call `inhibit` makes when a previous timer id
is remembered. -/
def cancelEvs (s : ManagerState) : List Event :=
  match s.inhibitId with
  | some oldId => [Event.cancelTimer oldId]
  | none => []

/-- `XScreenSaverManager.inhibit`: compute `interval = max(20, timeout - 10)`
seconds, cancel any previously armed timer, perform one immediate
suppression tick, then arm one recurring timer at that interval. -/
def inhibit (s : ManagerState) : ManagerState × List Event :=
  let interval : Int := max 20 (s.timeout - 10)
  let s1 : ManagerState :=
    match s.inhibitId with
    | some oldId => { s with armed := s.armed.filter (fun t => t.1 != oldId) }
    | none => s
  let tickEvs := doInhibitEvents s1
  let newId := s1.nextTimerId
  ({ s1 with inhibitId := some newId, nextTimerId := newId + 1,
             armed := s1.armed ++ [(newId, interval * 1000)] },
   cancelEvs s ++ tickEvs ++ [Event.armTimer newId (interval * 1000)])

/-- `XScreenSaverManager.uninhibit`: when a timer is remembered, re-enable
DPMS, cancel it and forget it; otherwise do nothing. -/
def uninhibit (s : ManagerState) : ManagerState × List Event :=
  match s.inhibitId with
  | some oldId =>
    ({ s with inhibitId := none, armed := s.armed.filter (fun t => t.1 != oldId) },
     setDpmsEvents s.manageDpms true ++ [Event.cancelTimer oldId])
  | none => (s, [])

/-- The armed-timer bookkeeping invariant: the armed timers are exactly the
one remembered in `inhibitId`, if any. -/
def timerInv (s : ManagerState) : Prop :=
  match s.inhibitId with
  | none => s.armed = []
  | some id => ∃ iv, s.armed = [(id, iv)]

/-- The line scan of `_read_timeout`: find the first line splitting into
exactly two tokens with first token `timeout:`; parse its second token as
`%H:%M:%S`, yielding `second + minute*60 + hour*3600`; on parse failure the
default 600 stands and the scan stops (`break`). No matching line yields
the default 600. -/
def scanTimeout : List String → Int
  | [] => 600
  | line :: rest =>
    match pySplit (pyStrip line.toList) with
    | [t0, t1] =>
      if t0 = "timeout:".toList then
        match strptimeHMS t1 with
        | some (h, m, sec) => (sec : Int) + (m : Int) * 60 + (h : Int) * 3600
        | none => 600
      else scanTimeout rest
    | _ => scanTimeout rest

/-- The file-reading portion of `_read_timeout`: an unreadable file
(`IOError`) leaves the default 600. -/
def readTimeoutValue : Option (List String) → Int
  | none => 600
  | some lines => scanTimeout lines

/-- The timeout value `_read_timeout` computes before the commit phase:
`CHANGES_DONE_HINT` or the `init` call read the file; `DELETED` resets to
the default without reading. -/
def computedTimeout (etype : Option FileEvent) (initFlag : Bool)
    (file : Option (List String)) : Int :=
  if etype = some FileEvent.changesDoneHint ∨ initFlag = true then
    readTimeoutValue file
  else 600

/-- `XScreenSaverManager._read_timeout`: on a relevant event compute the
timeout, and when it differs from the stored one commit it, re-invoke
`inhibit()` if an inhibition timer is armed, and emit `timeout-changed`. -/
def readTimeoutStep (etype : Option FileEvent) (initFlag : Bool)
    (file : Option (List String)) (s : ManagerState) : ManagerState × List Event :=
  if etype = some FileEvent.changesDoneHint ∨ etype = some FileEvent.deleted ∨
      initFlag = true then
    let t := computedTimeout etype initFlag file
    if t ≠ s.timeout then
      let s1 : ManagerState := { s with timeout := t }
      let r : ManagerState × List Event :=
        if s1.inhibitId.isSome then inhibit s1 else (s1, [])
      (r.1, r.2 ++ [Event.emitTimeoutChanged t])
    else (s, [])
  else (s, [])

/-- Recogniser for `timeout-changed` emissions, for counting. -/
def isTimeoutChangedEv : Event → Bool
  | Event.emitTimeoutChanged _ => true
  | _ => false

/-- Whether a config line is the authoritative `timeout:` line: it splits
into exactly two tokens and the first is `timeout:`. -/
def isTimeoutLine (l : String) : Bool :=
  match pySplit (pyStrip l.toList) with
  | [t0, _] => decide (t0 = "timeout:".toList)
  | _ => false

/-- The timeout a matching config line contributes: the `%H:%M:%S` value in
seconds, or the default 600 when its second token fails to parse. -/
def lineTimeout (l : String) : Int :=
  match pySplit (pyStrip l.toList) with
  | [_, t1] =>
    match strptimeHMS t1 with
    | some (h, m, sec) => (sec : Int) + (m : Int) * 60 + (h : Int) * 3600
    | none => 600
  | _ => 600

/-- `date.toordinal()` as used inside `datetime` subtraction: the day
number of the date in the proleptic Gregorian calendar. -/
def toOrdinal (dt : DateTime) : Nat :=
  (dt.year - 1) * 365 + (dt.year - 1) / 4 - (dt.year - 1) / 100 +
    (dt.year - 1) / 400 +
    (List.range (dt.month - 1)).foldl (fun a i => a + daysInMonth dt.year (i + 1)) 0 +
    dt.day

/-- A `datetime` instant as an absolute second count, so that subtraction
of two instants gives the `timedelta` total in seconds. -/
def toEpochSec (dt : DateTime) : Int :=
  (toOrdinal dt : Int) * 86400 + (dt.hour : Int) * 3600 +
    (dt.minute : Int) * 60 + (dt.second : Int)

/-- `XScreenSaverManager.active_time`: while active, form the `timedelta`
`now - active_since` and return `delta.seconds + delta.days * 3600`
(`delta.days` is the floor of the total over 86400, `delta.seconds` the
nonnegative remainder); while inactive, return 0. -/
def active_time (st : TrackerState) (now : DateTime) : Int :=
  if st.active then
    let delta := toEpochSec now - toEpochSec st.activeSince
    delta.emod 86400 + delta.ediv 86400 * 3600
  else 0

/-- The operations that can reach the manager after activation: a complete
watcher line, a config-monitor event, the inhibition entry points, a
timer-driven suppression tick, and the three forwarded commands. -/
inductive Op where
  | watcherLine (line : String)
  | configEvent (etype : Option FileEvent) (file : Option (List String))
  | inhibitOp
  | uninhibitOp
  | timerTick
  | lockOp
  | setActiveOp (v : Bool)
  | simulateOp
deriving Repr

/-- One dispatch of the event loop against the manager. A watcher callback
that raises leaves the tracker fields unchanged (the exception fires before
any field assignment). -/
def stepOp (s : ManagerState) : Op → ManagerState × List Event
  | Op.watcherLine line =>
    match processWatcherLine s.tracker line with
    | PyResult.ok (tr, ems) => ({ s with tracker := tr }, ems.map Event.emitActiveChanged)
    | PyResult.raised _ => (s, [])
  | Op.configEvent etype file => readTimeoutStep etype false file s
  | Op.inhibitOp => inhibit s
  | Op.uninhibitOp => uninhibit s
  | Op.timerTick => (s, doInhibitEvents s)
  | Op.lockOp => (s, if !s.tracker.locked then [Event.cmd "lock"] else [])
  | Op.setActiveOp v =>
    (s, if v ≠ s.tracker.active then
          [Event.cmd (if v then "activate" else "deactivate")]
        else [])
  | Op.simulateOp => (s, [Event.cmd "deactivate"])

/-- Run a sequence of operations. -/
def execOps (s : ManagerState) : List Op → ManagerState
  | [] => s
  | op :: rest => execOps (stepOp s op).1 rest

/-- The manager right after the tracker fields are initialised in
`activate`, before the config phase (no timer armed yet, sentinel not yet
stored). -/
def mkManager (tr : TrackerState) (dpms : Bool) : ManagerState :=
  { tracker := tr, timeout := 600, inhibitId := none, nextTimerId := 0,
    armed := [], manageDpms := dpms }

/-- The config phase of `activate` (lines 103-106): store the `-1` sentinel,
then run `_read_timeout(None, init=True)`. -/
def activateConfigInit (file : Option (List String)) (s : ManagerState) :
    ManagerState × List Event :=
  readTimeoutStep none true file { s with timeout := -1 }

/-- Fixture: a parsed timestamp. -/
def dtA : DateTime := ⟨2024, 1, 1, 10, 0, 0⟩

/-- Fixture: five seconds later. -/
def dtB : DateTime := ⟨2024, 1, 1, 10, 0, 5⟩

/-- Fixture: an idle (inactive, unlocked) tracker. -/
def trIdle : TrackerState := ⟨false, dtA, false⟩

/-- Fixture: an active, locked tracker. -/
def trLockedW : TrackerState := ⟨true, dtA, true⟩

/-- Fixture: idle manager, no timer armed. -/
def mgrIdle : ManagerState := mkManager trIdle true

/-- Fixture: locked manager, no timer armed. -/
def mgrLocked : ManagerState := mkManager trLockedW true

/-- Fixture: an operation sequence ending in a LOCK watcher line. -/
def opsW : List Op :=
  [Op.watcherLine "UNBLANK Mon Jan 01 10:05:00 2024",
   Op.inhibitOp,
   Op.configEvent (some FileEvent.changesDoneHint) (some ["timeout: 00:01:40"]),
   Op.watcherLine "BLANK Mon Jan 01 10:06:00 2024",
   Op.watcherLine "LOCK Mon Jan 01 10:07:00 2024"]

theorem inhibit_tracker (s : ManagerState) : (inhibit s).1.tracker = s.tracker := by
  rcases hid : s.inhibitId with _ | oldId <;> simp [inhibit, hid]

theorem inhibit_timeout (s : ManagerState) : (inhibit s).1.timeout = s.timeout := by
  rcases hid : s.inhibitId with _ | oldId <;> simp [inhibit, hid]

theorem inhibit_spec (s : ManagerState) (h : timerInv s) :
    (inhibit s).1.armed = [(s.nextTimerId, max 20 (s.timeout - 10) * 1000)] ∧
    (inhibit s).1.inhibitId = some s.nextTimerId ∧
    (inhibit s).1.nextTimerId = s.nextTimerId + 1 ∧
    timerInv (inhibit s).1 ∧
    (inhibit s).2 = cancelEvs s ++ doInhibitEvents s ++
      [Event.armTimer s.nextTimerId (max 20 (s.timeout - 10) * 1000)] := by
  rcases hid : s.inhibitId with _ | oldId
  · unfold timerInv at h
    rw [hid] at h
    refine ⟨?_, ?_, ?_, ?_, ?_⟩ <;>
      simp [inhibit, cancelEvs, timerInv, hid, h]
  · unfold timerInv at h
    rw [hid] at h
    obtain ⟨iv, harm⟩ := h
    have hfilter : s.armed.filter (fun t => t.1 != oldId) = [] := by
      rw [harm]; simp
    refine ⟨?_, ?_, ?_, ?_, ?_⟩ <;>
      simp [inhibit, cancelEvs, timerInv, hid, hfilter, doInhibitEvents]

/-- Claim C5: a suppression tick while the tracker is locked performs no
deactivate command and no power-standby change — both for a timer-driven
tick and for the immediate tick inside `inhibit()` (whose trace then
consists only of the timer bookkeeping); the deactivate command and the
DPMS-off call happen exactly when the tracker is not locked. -/
theorem tick_skips_when_locked (s : ManagerState) :
    (s.tracker.locked = true →
      doInhibitEvents s = [] ∧
      (stepOp s Op.timerTick).2 = [] ∧
      (inhibit s).2 = cancelEvs s ++
        [Event.armTimer s.nextTimerId (max 20 (s.timeout - 10) * 1000)]) ∧
    (s.tracker.locked = false →
      doInhibitEvents s = Event.cmd "deactivate" :: setDpmsEvents s.manageDpms false) := by
  constructor
  · intro hl
    have htick : doInhibitEvents s = [] := by simp [doInhibitEvents, hl]
    refine ⟨htick, by simp [stepOp, htick], ?_⟩
    rcases hid : s.inhibitId with _ | oldId <;>
      simp [inhibit, cancelEvs, hid, doInhibitEvents, hl]
  · intro hl
    simp [doInhibitEvents, hl]

theorem tick_skips_when_locked_witness :
    (mgrLocked.tracker.locked = true ∧ doInhibitEvents mgrLocked = []) ∧
    (mgrIdle.tracker.locked = false ∧
      doInhibitEvents mgrIdle = Event.cmd "deactivate" :: setDpmsEvents mgrIdle.manageDpms false) :=
  ⟨⟨rfl, ((tick_skips_when_locked mgrLocked).1 rfl).1⟩,
   ⟨rfl, (tick_skips_when_locked mgrIdle).2 rfl⟩⟩

/-- Claim C4: `inhibit()` computes `interval = max(20, timeout - 10)` from
the timeout at call time, cancels any previously armed timer, performs one
immediate suppression tick, and arms exactly one recurring timer at that
interval; a second call in succession again leaves exactly one timer armed,
at the interval derived from the (unchanged, hence most recent) timeout. -/
theorem inhibit_twice_single_timer (s : ManagerState) (h : timerInv s) :
    (inhibit s).1.armed = [(s.nextTimerId, max 20 (s.timeout - 10) * 1000)] ∧
    (inhibit s).2 = cancelEvs s ++ doInhibitEvents s ++
      [Event.armTimer s.nextTimerId (max 20 (s.timeout - 10) * 1000)] ∧
    (inhibit s).1.timeout = s.timeout ∧
    (inhibit (inhibit s).1).1.armed =
      [((inhibit s).1.nextTimerId, max 20 ((inhibit s).1.timeout - 10) * 1000)] := by
  obtain ⟨h1, _, _, hinv, h5⟩ := inhibit_spec s h
  obtain ⟨h1b, _, _, _, _⟩ := inhibit_spec (inhibit s).1 hinv
  exact ⟨h1, h5, inhibit_timeout s, h1b⟩

theorem inhibit_twice_single_timer_witness :
    (inhibit mgrIdle).1.armed = [(mgrIdle.nextTimerId, max 20 (mgrIdle.timeout - 10) * 1000)] ∧
    (inhibit mgrIdle).2 = cancelEvs mgrIdle ++ doInhibitEvents mgrIdle ++
      [Event.armTimer mgrIdle.nextTimerId (max 20 (mgrIdle.timeout - 10) * 1000)] ∧
    (inhibit mgrIdle).1.timeout = mgrIdle.timeout ∧
    (inhibit (inhibit mgrIdle).1).1.armed =
      [((inhibit mgrIdle).1.nextTimerId, max 20 ((inhibit mgrIdle).1.timeout - 10) * 1000)] :=
  inhibit_twice_single_timer mgrIdle (by simp [mgrIdle, mkManager, timerInv])

/-- Claim C3: a complete watcher line with a recognized state token but a
remainder that does not parse in the fixed timestamp format is NOT dropped
gracefully: `datetime.strptime` raises `ValueError` and no handler exists in
`_read_from_watcher`, so the exception escapes the reader callback. A line
with a parsable timestamp is processed normally. -/
theorem watcher_malformed_timestamp_raises :
    processWatcherLine trIdle "LOCK garbage" =
      PyResult.raised "ValueError: time data does not match format" ∧
    processWatcherLine trIdle "LOCK Mon Jan 01 10:00:05 2024" =
      PyResult.ok (⟨true, dtB, true⟩, [true]) := by decide

/-- Claim C8: `active_time` computes `delta.seconds + delta.days * 3600`,
multiplying whole days by 3600 instead of 86400: exactly one elapsed day
yields 3600, not the elapsed 86400 seconds. Below one day the value is the
true elapsed-second count (90 seconds after activation yields 90), and
while inactive it is 0. -/
theorem active_time_day_overflow_bug :
    toEpochSec ⟨2024, 1, 2, 10, 0, 0⟩ - toEpochSec ⟨2024, 1, 1, 10, 0, 0⟩ = 86400 ∧
    active_time ⟨true, ⟨2024, 1, 1, 10, 0, 0⟩, false⟩ ⟨2024, 1, 2, 10, 0, 0⟩ = 3600 ∧
    (3600 : Int) ≠ 86400 ∧
    toEpochSec ⟨2024, 1, 1, 10, 3, 0⟩ - toEpochSec ⟨2024, 1, 1, 10, 1, 30⟩ = 90 ∧
    active_time ⟨true, ⟨2024, 1, 1, 10, 1, 30⟩, false⟩ ⟨2024, 1, 1, 10, 3, 0⟩ = 90 ∧
    active_time ⟨false, ⟨2024, 1, 1, 10, 0, 0⟩, false⟩ ⟨2024, 1, 2, 10, 0, 0⟩ = 0 := by
  decide

/-- Claim C9: during initialisation the tracker survives a present but
non-matching `time` query output (it keeps the defaults
`(active=false, locked=false, since=now)`), but it does crash on an absent
output (`None.decode` raises `AttributeError`) and on a matching output
whose timestamp does not parse (`ValueError`). -/
theorem init_query_output_crash_cases :
    initFromTimeOutput none dtA =
      PyResult.raised "AttributeError: NoneType object has no attribute decode" ∧
    initFromTimeOutput (some "no screensaver status here") dtA =
      PyResult.ok ⟨false, dtA, false⟩ ∧
    initFromTimeOutput
        (some "XScreenSaver 5.15: screen non-blanked since Mon Jan  1 10:00:00 2024 (hacks: #0)") dtA =
      PyResult.ok ⟨false, ⟨2024, 1, 1, 10, 0, 0⟩, false⟩ ∧
    initFromTimeOutput (some "screen blanked since garbage") dtA =
      PyResult.raised "ValueError: time data does not match format" := by decide

theorem processWatcherLine_eq_of (st : TrackerState) (line : String)
    (tok rest : List Char) (ts : DateTime)
    (hsplit : splitOnce line.toList = [tok, rest])
    (hrec : tok = "BLANK".toList ∨ tok = "LOCK".toList ∨ tok = "UNBLANK".toList)
    (hts : strptimeDateTime (pyStrip rest) = some ts) :
    processWatcherLine st line =
      (if decide (tok ≠ "UNBLANK".toList) ≠ st.active then
        PyResult.ok
          (⟨decide (tok ≠ "UNBLANK".toList), ts, decide (tok = "LOCK".toList)⟩,
           [decide (tok ≠ "UNBLANK".toList)])
      else PyResult.ok ({ st with locked := decide (tok = "LOCK".toList) }, [])) := by
  unfold processWatcherLine
  rw [hsplit]
  simp only [if_pos hrec, hts]

/-- Claim C1: for every watcher line that decodes (recognized state token
and parsable timestamp), the `locked` field of the tracker is set to
`state == LOCK` unconditionally, while the `(active, since)` pair is
committed and an `active-changed` notification carrying the decoded value
is emitted exactly when the decoded `active` (`state != UNBLANK`) differs
from the current `active`; when they are equal, no notification is emitted
and `active` / `activeSince` are unchanged. -/
theorem watcher_locked_set_and_emit_iff (st : TrackerState) (line : String)
    (tok rest : List Char) (ts : DateTime)
    (hsplit : splitOnce line.toList = [tok, rest])
    (hrec : tok = "BLANK".toList ∨ tok = "LOCK".toList ∨ tok = "UNBLANK".toList)
    (hts : strptimeDateTime (pyStrip rest) = some ts) :
    ∃ st2 ems, processWatcherLine st line = PyResult.ok (st2, ems) ∧
      st2.locked = decide (tok = "LOCK".toList) ∧
      (decide (tok ≠ "UNBLANK".toList) ≠ st.active →
        st2.active = decide (tok ≠ "UNBLANK".toList) ∧ st2.activeSince = ts ∧
        ems = [decide (tok ≠ "UNBLANK".toList)]) ∧
      (decide (tok ≠ "UNBLANK".toList) = st.active →
        st2.active = st.active ∧ st2.activeSince = st.activeSince ∧ ems = []) := by
  have hmain := processWatcherLine_eq_of st line tok rest ts hsplit hrec hts
  by_cases hc : decide (tok ≠ "UNBLANK".toList) ≠ st.active
  · rw [if_pos hc] at hmain
    exact ⟨_, _, hmain, rfl, fun _ => ⟨rfl, rfl, rfl⟩, fun heq => absurd heq hc⟩
  · rw [if_neg hc] at hmain
    push_neg at hc
    exact ⟨_, _, hmain, rfl, fun hne => absurd hc hne, fun _ => ⟨rfl, rfl, rfl⟩⟩

theorem watcher_locked_set_and_emit_iff_witness :
    ∃ st2 ems,
      processWatcherLine trIdle "LOCK Mon Jan 01 10:00:05 2024" = PyResult.ok (st2, ems) ∧
      st2.locked = decide (("LOCK".toList : List Char) = "LOCK".toList) ∧
      (decide (("LOCK".toList : List Char) ≠ "UNBLANK".toList) ≠ trIdle.active →
        st2.active = decide (("LOCK".toList : List Char) ≠ "UNBLANK".toList) ∧
        st2.activeSince = dtB ∧
        ems = [decide (("LOCK".toList : List Char) ≠ "UNBLANK".toList)]) ∧
      (decide (("LOCK".toList : List Char) ≠ "UNBLANK".toList) = trIdle.active →
        st2.active = trIdle.active ∧ st2.activeSince = trIdle.activeSince ∧ ems = []) :=
  watcher_locked_set_and_emit_iff trIdle "LOCK Mon Jan 01 10:00:05 2024"
    ("LOCK".toList) ("Mon Jan 01 10:00:05 2024".toList) dtB
    (by decide) (Or.inr (Or.inl rfl)) (by decide)

theorem scanTimeout_cons_skip (l : String) (rest : List String)
    (h : isTimeoutLine l = false) : scanTimeout (l :: rest) = scanTimeout rest := by
  rcases hp : pySplit (pyStrip l.toList) with _ | ⟨t0, _ | ⟨t1, _ | ⟨t2, ts⟩⟩⟩ <;>
    simp_all [scanTimeout, isTimeoutLine]

theorem scanTimeout_cons_take (l : String) (rest : List String)
    (h : isTimeoutLine l = true) : scanTimeout (l :: rest) = lineTimeout l := by
  rcases hp : pySplit (pyStrip l.toList) with _ | ⟨t0, _ | ⟨t1, _ | ⟨t2, ts⟩⟩⟩ <;>
    simp_all [scanTimeout, isTimeoutLine, lineTimeout]

theorem scanTimeout_first_match (pre : List String) (l : String) (rest : List String)
    (hpre : ∀ lp ∈ pre, isTimeoutLine lp = false) (hl : isTimeoutLine l = true) :
    scanTimeout (pre ++ l :: rest) = lineTimeout l := by
  induction pre with
  | nil => exact scanTimeout_cons_take l rest hl
  | cons p ps ih =>
    rw [List.cons_append, scanTimeout_cons_skip p _ (hpre p (List.mem_cons_self p ps))]
    exact ih fun lp hm => hpre lp (List.mem_cons_of_mem p hm)

/-- Claim C6: the config reader takes the first line with exactly two
whitespace-separated tokens whose first token is `timeout:`; a second token
parsing as `HH:MM:SS` yields `H*3600 + M*60 + S` seconds (`timeout: 00:05:30`
yields 330); an unreadable file, no matching line, or a matching line whose
token fails to parse (`timeout: bogus`) all yield the default 600. -/
theorem read_timeout_parse_spec :
    readTimeoutValue none = 600 ∧
    readTimeoutValue (some ["timeout: 00:05:30"]) = 330 ∧
    readTimeoutValue (some ["timeout: bogus"]) = 600 ∧
    readTimeoutValue (some []) = 600 ∧
    (∀ pre l rest, (∀ lp ∈ pre, isTimeoutLine lp = false) → isTimeoutLine l = true →
      scanTimeout (pre ++ l :: rest) = lineTimeout l) ∧
    (∀ l t0 t1 h m sec, pySplit (pyStrip l.toList) = [t0, t1] →
      strptimeHMS t1 = some (h, m, sec) →
      lineTimeout l = (h : Int) * 3600 + (m : Int) * 60 + (sec : Int)) ∧
    (∀ l t0 t1, pySplit (pyStrip l.toList) = [t0, t1] →
      strptimeHMS t1 = none → lineTimeout l = 600) := by
  refine ⟨by decide, by decide, by decide, by decide, scanTimeout_first_match, ?_, ?_⟩
  · intro l t0 t1 h m sec hp hhms
    unfold lineTimeout
    rw [hp]
    simp only [hhms]
    ring
  · intro l t0 t1 hp hhms
    unfold lineTimeout
    rw [hp]
    simp only [hhms]

theorem read_timeout_parse_spec_witness :
    scanTimeout (["option: x"] ++ "timeout: 00:00:45" :: ["timeout: 00:00:09"]) =
      lineTimeout "timeout: 00:00:45" :=
  read_timeout_parse_spec.2.2.2.2.1 ["option: x"] "timeout: 00:00:45" ["timeout: 00:00:09"]
    (by decide) (by decide)

theorem readTimeoutStep_eq_of_ne (etype : Option FileEvent) (initFlag : Bool)
    (file : Option (List String)) (s : ManagerState)
    (hguard : etype = some FileEvent.changesDoneHint ∨ etype = some FileEvent.deleted ∨
      initFlag = true)
    (hne : computedTimeout etype initFlag file ≠ s.timeout) :
    readTimeoutStep etype initFlag file s =
      (let s1 : ManagerState := { s with timeout := computedTimeout etype initFlag file }
       let r : ManagerState × List Event :=
         if s1.inhibitId.isSome then inhibit s1 else (s1, [])
       (r.1, r.2 ++ [Event.emitTimeoutChanged (computedTimeout etype initFlag file)])) := by
  unfold readTimeoutStep
  rw [if_pos hguard, if_pos hne]

theorem readTimeoutStep_eq_of_eq (etype : Option FileEvent) (initFlag : Bool)
    (file : Option (List String)) (s : ManagerState)
    (heq : computedTimeout etype initFlag file = s.timeout) :
    readTimeoutStep etype initFlag file s = (s, []) := by
  unfold readTimeoutStep
  split
  · rw [if_neg (by simpa using heq)]
  · rfl

/-- Claim C7: on every config re-parse the `timeout-changed` notification
is emitted exactly when the computed timeout differs from the stored one;
when it differs, the new value is committed and, if an inhibition timer is
armed, `inhibit()` runs (its whole trace precedes the notification, which
comes last); when it is equal, the state is unchanged and nothing at all is
emitted. -/
theorem timeout_change_emit_iff (etype : Option FileEvent) (initFlag : Bool)
    (file : Option (List String)) (s : ManagerState)
    (hguard : etype = some FileEvent.changesDoneHint ∨ etype = some FileEvent.deleted ∨
      initFlag = true) :
    (Event.emitTimeoutChanged (computedTimeout etype initFlag file) ∈
        (readTimeoutStep etype initFlag file s).2 ↔
      computedTimeout etype initFlag file ≠ s.timeout) ∧
    (computedTimeout etype initFlag file ≠ s.timeout →
      (readTimeoutStep etype initFlag file s).1.timeout =
        computedTimeout etype initFlag file ∧
      (readTimeoutStep etype initFlag file s).2 =
        (if s.inhibitId.isSome then
          (inhibit { s with timeout := computedTimeout etype initFlag file }).2
         else []) ++
        [Event.emitTimeoutChanged (computedTimeout etype initFlag file)]) ∧
    (computedTimeout etype initFlag file = s.timeout →
      (readTimeoutStep etype initFlag file s).1 = s ∧
      (readTimeoutStep etype initFlag file s).2 = []) := by
  by_cases hne : computedTimeout etype initFlag file = s.timeout
  · rw [readTimeoutStep_eq_of_eq etype initFlag file s hne]
    exact ⟨by simp [hne], fun h => absurd hne h, fun _ => ⟨rfl, rfl⟩⟩
  · rw [readTimeoutStep_eq_of_ne etype initFlag file s hguard hne]
    refine ⟨?_, fun _ => ⟨?_, ?_⟩, fun h => absurd h hne⟩
    · simp [hne]
    · by_cases hs : s.inhibitId.isSome <;>
        simp [hs, inhibit_timeout]
    · by_cases hs : s.inhibitId.isSome <;> simp [hs]

theorem timeout_change_emit_iff_witness :
    (Event.emitTimeoutChanged
        (computedTimeout (some FileEvent.changesDoneHint) false (some ["timeout: 00:05:30"])) ∈
        (readTimeoutStep (some FileEvent.changesDoneHint) false
          (some ["timeout: 00:05:30"]) mgrIdle).2 ↔
      computedTimeout (some FileEvent.changesDoneHint) false (some ["timeout: 00:05:30"]) ≠
        mgrIdle.timeout) ∧
    (computedTimeout (some FileEvent.changesDoneHint) false (some ["timeout: 00:05:30"]) ≠
        mgrIdle.timeout →
      (readTimeoutStep (some FileEvent.changesDoneHint) false
          (some ["timeout: 00:05:30"]) mgrIdle).1.timeout =
        computedTimeout (some FileEvent.changesDoneHint) false (some ["timeout: 00:05:30"]) ∧
      (readTimeoutStep (some FileEvent.changesDoneHint) false
          (some ["timeout: 00:05:30"]) mgrIdle).2 =
        (if mgrIdle.inhibitId.isSome then
          (inhibit { mgrIdle with
            timeout := computedTimeout (some FileEvent.changesDoneHint) false
              (some ["timeout: 00:05:30"]) }).2
         else []) ++
        [Event.emitTimeoutChanged
          (computedTimeout (some FileEvent.changesDoneHint) false (some ["timeout: 00:05:30"]))]) ∧
    (computedTimeout (some FileEvent.changesDoneHint) false (some ["timeout: 00:05:30"]) =
        mgrIdle.timeout →
      (readTimeoutStep (some FileEvent.changesDoneHint) false
          (some ["timeout: 00:05:30"]) mgrIdle).1 = mgrIdle ∧
      (readTimeoutStep (some FileEvent.changesDoneHint) false
          (some ["timeout: 00:05:30"]) mgrIdle).2 = []) :=
  timeout_change_emit_iff (some FileEvent.changesDoneHint) false
    (some ["timeout: 00:05:30"]) mgrIdle (Or.inl rfl)

theorem lineTimeout_nonneg (l : String) : 0 ≤ lineTimeout l := by
  unfold lineTimeout
  split
  · split
    · positivity
    · norm_num
  · norm_num

theorem scanTimeout_nonneg (lines : List String) : 0 ≤ scanTimeout lines := by
  induction lines with
  | nil => simp [scanTimeout]
  | cons l rest ih =>
    by_cases h : isTimeoutLine l = true
    · rw [scanTimeout_cons_take l rest h]
      exact lineTimeout_nonneg l
    · rw [scanTimeout_cons_skip l rest (by simpa using h)]
      exact ih

theorem readTimeoutValue_nonneg (file : Option (List String)) :
    0 ≤ readTimeoutValue file := by
  cases file with
  | none => simp [readTimeoutValue]
  | some lines => exact scanTimeout_nonneg lines

theorem inhibit_no_timeout_changed (s : ManagerState) :
    (inhibit s).2.countP isTimeoutChangedEv = 0 := by
  rcases hid : s.inhibitId with _ | oldId <;>
    rcases hl : s.tracker.locked <;>
    rcases hd : s.manageDpms <;>
    simp [inhibit, cancelEvs, doInhibitEvents, setDpmsEvents, hid, hl, hd,
      isTimeoutChangedEv, List.countP_cons, List.countP_append]

/-- Claim C10: the stored timeout holds the `-1` sentinel when `activate`
runs the initial config read, and every timeout the config reader computes
is nonnegative, so the initial read always differs from the sentinel and
activation emits exactly one `timeout-changed` notification, whatever the
config file holds and whether or not it exists. -/
theorem activation_single_timeout_emit (file : Option (List String)) (s : ManagerState) :
    0 ≤ readTimeoutValue file ∧
    (activateConfigInit file s).2.countP isTimeoutChangedEv = 1 ∧
    (activateConfigInit file s).1.timeout = readTimeoutValue file := by
  have hnn := readTimeoutValue_nonneg file
  have hcomp : computedTimeout none true file = readTimeoutValue file := by
    simp [computedTimeout]
  have hne : computedTimeout none true file ≠
      ({ s with timeout := (-1 : Int) } : ManagerState).timeout := by
    rw [hcomp]
    simp only
    omega
  unfold activateConfigInit
  rw [readTimeoutStep_eq_of_ne none true file _ (Or.inr (Or.inr rfl)) hne]
  refine ⟨hnn, ?_, ?_⟩
  · by_cases hs : s.inhibitId.isSome <;>
      simp [hs, List.countP_append, List.countP_cons, isTimeoutChangedEv,
        inhibit_no_timeout_changed, hcomp]
  · by_cases hs : s.inhibitId.isSome <;>
      simp [hs, inhibit_timeout, hcomp]

theorem processWatcherLine_raises_of (st : TrackerState) (line : String)
    (tok rest : List Char)
    (hsplit : splitOnce line.toList = [tok, rest])
    (hrec : tok = "BLANK".toList ∨ tok = "LOCK".toList ∨ tok = "UNBLANK".toList)
    (hts : strptimeDateTime (pyStrip rest) = none) :
    processWatcherLine st line =
      PyResult.raised "ValueError: time data does not match format" := by
  unfold processWatcherLine
  rw [hsplit]
  simp only [if_pos hrec, hts]

theorem processWatcherLine_inv (tr tr2 : TrackerState) (line : String) (ems : List Bool)
    (hok : processWatcherLine tr line = PyResult.ok (tr2, ems))
    (h : tr.locked = true → tr.active = true) :
    tr2.locked = true → tr2.active = true := by
  rcases hsp : splitOnce line.toList with _ | ⟨tok, _ | ⟨rest, _ | _⟩⟩
  · unfold processWatcherLine at hok
    rw [hsp] at hok
    simp at hok
  · unfold processWatcherLine at hok
    rw [hsp] at hok
    simp at hok
  case cons.cons.cons =>
    unfold processWatcherLine at hok
    rw [hsp] at hok
    simp at hok
  case cons.cons.nil =>
    by_cases hrec : tok = "BLANK".toList ∨ tok = "LOCK".toList ∨ tok = "UNBLANK".toList
    · rcases hts : strptimeDateTime (pyStrip rest) with _ | since
      · rw [processWatcherLine_raises_of tr line tok rest hsp hrec hts] at hok
        exact absurd hok (by simp)
      · rw [processWatcherLine_eq_of tr line tok rest since hsp hrec hts] at hok
        by_cases hc : decide (tok ≠ "UNBLANK".toList) ≠ tr.active
        · rw [if_pos hc] at hok
          obtain ⟨htr, _⟩ : (⟨decide (tok ≠ "UNBLANK".toList), since,
              decide (tok = "LOCK".toList)⟩ : TrackerState) = tr2 ∧
              [decide (tok ≠ "UNBLANK".toList)] = ems := by
            simpa using hok
          intro hl
          rw [← htr] at hl ⊢
          simp only at hl ⊢
          have htok : tok = "LOCK".toList := of_decide_eq_true hl
          subst htok
          decide
        · rw [if_neg hc] at hok
          push_neg at hc
          obtain ⟨htr, _⟩ : ({ tr with locked := decide (tok = "LOCK".toList) } :
              TrackerState) = tr2 ∧ ([] : List Bool) = ems := by
            simpa using hok
          intro hl
          rw [← htr] at hl ⊢
          simp only at hl ⊢
          have htok : tok = "LOCK".toList := of_decide_eq_true hl
          subst htok
          rw [← hc]
          decide
    · unfold processWatcherLine at hok
      rw [hsp] at hok
      simp only [if_neg hrec] at hok
      obtain ⟨htr, _⟩ : tr = tr2 ∧ ([] : List Bool) = ems := by simpa using hok
      rw [← htr]
      exact h

theorem readTimeoutStep_tracker (etype : Option FileEvent) (initFlag : Bool)
    (file : Option (List String)) (s : ManagerState) :
    (readTimeoutStep etype initFlag file s).1.tracker = s.tracker := by
  by_cases hne : computedTimeout etype initFlag file = s.timeout
  · rw [readTimeoutStep_eq_of_eq etype initFlag file s hne]
  · by_cases hg : etype = some FileEvent.changesDoneHint ∨ etype = some FileEvent.deleted ∨
        initFlag = true
    · rw [readTimeoutStep_eq_of_ne etype initFlag file s hg hne]
      by_cases hs : s.inhibitId.isSome <;> simp [hs, inhibit_tracker]
    · unfold readTimeoutStep
      rw [if_neg hg]

theorem uninhibit_tracker (s : ManagerState) : (uninhibit s).1.tracker = s.tracker := by
  rcases hid : s.inhibitId with _ | oldId <;> simp [uninhibit, hid]

theorem stepOp_inv (s : ManagerState) (op : Op)
    (h : s.tracker.locked = true → s.tracker.active = true) :
    (stepOp s op).1.tracker.locked = true → (stepOp s op).1.tracker.active = true := by
  cases op with
  | watcherLine line =>
    rcases hw : processWatcherLine s.tracker line with ⟨tr2, ems⟩ | msg
    · simpa [stepOp, hw] using processWatcherLine_inv s.tracker tr2 line ems hw h
    · simpa [stepOp, hw] using h
  | configEvent etype file =>
    simpa [stepOp, readTimeoutStep_tracker] using h
  | inhibitOp => simpa [stepOp, inhibit_tracker] using h
  | uninhibitOp => simpa [stepOp, uninhibit_tracker] using h
  | timerTick => simpa [stepOp] using h
  | lockOp => simpa [stepOp] using h
  | setActiveOp v => simpa [stepOp] using h
  | simulateOp => simpa [stepOp] using h

theorem execOps_inv (ops : List Op) (s : ManagerState)
    (h : s.tracker.locked = true → s.tracker.active = true) :
    (execOps s ops).tracker.locked = true → (execOps s ops).tracker.active = true := by
  induction ops generalizing s with
  | nil => exact h
  | cons op rest ih => exact ih (stepOp s op).1 (stepOp_inv s op h)

theorem initFromTimeOutput_inv (output : Option String) (now : DateTime)
    (tr : TrackerState) (h : initFromTimeOutput output now = PyResult.ok tr) :
    tr.locked = true → tr.active = true := by
  cases output with
  | none => simp [initFromTimeOutput] at h
  | some s =>
    unfold initFromTimeOutput at h
    dsimp only at h
    rcases hs : searchScreenSince s.toList with _ | ⟨state, ds⟩
    · rw [hs] at h
      have htr : (⟨false, now, false⟩ : TrackerState) = tr := by simpa using h
      rw [← htr]
      intro hl
      exact absurd hl (by simp)
    · rw [hs] at h
      dsimp only at h
      rcases hts : strptimeDateTime (pyStrip ds) with _ | dt
      · rw [hts] at h
        simp at h
      · rw [hts] at h
        have htr : (⟨decide (state ≠ "non-blanked".toList), dt,
            decide (state = "locked".toList)⟩ : TrackerState) = tr := by
          simpa using h
        rw [← htr]
        intro hl
        simp only at hl ⊢
        have hstate : state = "locked".toList := of_decide_eq_true hl
        subst hstate
        decide

/-- Claim C2: after a successful initialisation, every sequence of
operations (watcher lines, config reloads, inhibition calls, timer ticks
and forwarded commands) keeps the tracker in a state where `locked = true`
implies `active = true`; the state `(active=false, locked=true)` is
unreachable. -/
theorem locked_implies_active_invariant (output : Option String) (now : DateTime)
    (tr : TrackerState) (dpms : Bool) (file : Option (List String)) (ops : List Op)
    (hinit : initFromTimeOutput output now = PyResult.ok tr) :
    (execOps (activateConfigInit file (mkManager tr dpms)).1 ops).tracker.locked = true →
    (execOps (activateConfigInit file (mkManager tr dpms)).1 ops).tracker.active = true := by
  apply execOps_inv
  have hpre : (activateConfigInit file (mkManager tr dpms)).1.tracker =
      (mkManager tr dpms).tracker := by
    unfold activateConfigInit
    exact readTimeoutStep_tracker none true file _
  rw [hpre]
  exact initFromTimeOutput_inv output now tr hinit

theorem locked_implies_active_invariant_witness :
    initFromTimeOutput (some "screen locked since Mon Jan 01 10:00:00 2024") dtA =
      PyResult.ok trLockedW ∧
    (execOps (activateConfigInit (some ["timeout: 00:05:30"]) (mkManager trLockedW true)).1
        opsW).tracker.locked = true ∧
    (execOps (activateConfigInit (some ["timeout: 00:05:30"]) (mkManager trLockedW true)).1
        opsW).tracker.active = true :=
  ⟨by decide, by decide,
   locked_implies_active_invariant (some "screen locked since Mon Jan 01 10:00:00 2024")
     dtA trLockedW true (some ["timeout: 00:05:30"]) opsW (by decide) (by decide)⟩

end FauxGnomeScreensaver
